import Mathlib

/-!
Shallow embedding of the AI Data Generation & Retry Orchestration subsystem of
Smart-Table-Autogenerate (src/services/geminiService.ts), together with proofs
about the claims of its specification.

Modelling conventions:
* JavaScript numbers used in delay arithmetic are modelled as rationals (ℚ).
* The generative-model call (`client.models.generateContent`) is an external
  effect; it is modelled as an explicit function argument giving, for each
  (batch, attempt) pair, either a response or a failure.  `JSON.parse` is a
  host-library function and is likewise passed in as a `String → Option _`
  decoder, `none` standing for a thrown SyntaxError.
* `Math.random()` draws are passed in as an explicit stream of rationals.
* An error object reaching the catch block of `retryWithBackoff` is modelled by
  `ApiError`, whose fields hold the values produced by the extraction chains of
  lines 27-29 of geminiService.ts (`error?.error?.code || error?.code ||
  error?.status`, etc.); `details` models `error?.error?.details ||
  error?.details`.
-/

/-- A JavaScript scalar that can appear in the `code`/`status` position of an
error object: a number or a string. -/
inductive JSVal where
  | num (n : Int)
  | str (s : String)
deriving DecidableEq, Repr

/-- One entry of the RPC error `details` array; `atType` models the `@type`
field (absent modelled as `none`, matching the `?.` access), `retryDelay` the
optional protobuf duration string such as `"53s"`. -/
structure RetryDetail where
  atType : Option String
  retryDelay : Option String
deriving DecidableEq, Repr

/-- The error object as seen by the catch block of `retryWithBackoff`
(geminiService.ts lines 25-29, after the `||` extraction chains):
`code` is `error?.error?.code || error?.code || error?.status` (`none` when all
absent), `message` is `error?.message || error?.error?.message || ''`,
`statusText` is `error?.statusText || error?.response?.statusText || ''`, and
`details` is `error?.error?.details || error?.details`. -/
structure ApiError where
  code : Option JSVal
  message : String
  statusText : String
  details : Option (List RetryDetail)
deriving DecidableEq, Repr

/-- Scan `needle.isPrefixOf` at every position: JavaScript
`hay.includes(needle)` on character lists. -/
def containsFrom (needle : List Char) : List Char → Bool
  | [] => needle.isEmpty
  | c :: cs => needle.isPrefixOf (c :: cs) || containsFrom needle cs

/-- JavaScript `hay.includes(needle)` on strings. -/
def jsIncludes (hay needle : String) : Bool :=
  containsFrom needle.toList hay.toList

/-- JavaScript `str.toLowerCase()`, character by character. -/
def jsToLower (s : String) : String :=
  String.mk (s.toList.map Char.toLower)

/-- Numeric value of a digit run. -/
def digitsToNat (ds : List Char) : Nat :=
  ds.foldl (fun a c => a * 10 + (c.toNat - 48)) 0

/-- Lexical part of JavaScript `parseFloat`: optional leading spaces, optional
sign, integer digits, optional `.` and fraction digits; trailing garbage
ignored.  Returns the sign and the two digit runs, or `none` for `NaN` (no
digits at all before the first invalid character). -/
def parseFloatSplit (s : String) : Option (Bool × List Char × List Char) :=
  let cs := s.toList.dropWhile (fun c => c == ' ')
  let neg := cs.head? == some '-'
  let cs := if cs.head? == some '-' || cs.head? == some '+' then cs.drop 1 else cs
  let intDigits := cs.takeWhile Char.isDigit
  let rest := cs.drop intDigits.length
  let fracDigits := if rest.head? == some '.' then (rest.drop 1).takeWhile Char.isDigit else []
  if intDigits.isEmpty && fracDigits.isEmpty then none
  else some (neg, intDigits, fracDigits)

/-- JavaScript `parseFloat`, restricted to the plain-decimal forms that arise
here.  Exponent notation never arises from the regex capture `[\d.]+` nor
from protobuf duration strings and is not modelled. -/
def parseFloatQ (s : String) : Option ℚ :=
  match parseFloatSplit s with
  | none => none
  | some (neg, intDigits, fracDigits) =>
    some ((if neg then -1 else 1) *
      ((digitsToNat intDigits : ℚ) + (digitsToNat fracDigits : ℚ) / 10 ^ fracDigits.length))

/-- JavaScript `str.replace('s', '')`: removes the first occurrence of `'s'`. -/
def removeFirstS : List Char → List Char
  | [] => []
  | c :: cs => if c == 's' then cs else c :: removeFirstS cs

/-- At one candidate start position, attempt the regex `/retry in ([\d.]+)s/`:
literal `"retry in "`, then a maximal nonempty run of digits and dots, then
`'s'`.  (Within the run every character is a digit or dot, never `'s'`, so the
only backtracking-consistent match takes the whole run.)  Returns the captured
group. -/
def retryMatchAt (cs : List Char) : Option (List Char) :=
  if ("retry in ".toList).isPrefixOf cs then
    let rest := cs.drop 9
    let run := rest.takeWhile (fun c => c.isDigit || c == '.')
    if run.isEmpty then none
    else if (rest.drop run.length).head? = some 's' then some run else none
  else none

/-- First match of `/retry in ([\d.]+)s/` scanning left to right; returns the
captured group (`match[1]` of geminiService.ts line 58). -/
def findRetryGroup : List Char → Option (List Char)
  | [] => none
  | c :: cs =>
    match retryMatchAt (c :: cs) with
    | some g => some g
    | none => findRetryGroup cs

/-- Lines 57-65: parse the retry delay (in seconds) out of the error message;
`none` when the regex does not match or `parseFloat` yields `NaN`. -/
def messageRetrySeconds (msg : String) : Option ℚ :=
  (findRetryGroup msg.toList).bind (fun g => parseFloatQ (String.mk g))

/-- Lines 44-53: structured retry delay (seconds) from the error details:
`details.find(d => d['@type']?.includes('RetryInfo'))`, then its truthy
`retryDelay` with the first `'s'` removed, through `parseFloat`; `none` when
any step fails (including `NaN`). -/
def structuredRetrySeconds (e : ApiError) : Option ℚ :=
  match e.details with
  | none => none
  | some ds =>
    match ds.find? (fun d => match d.atType with
      | some t => jsIncludes t "RetryInfo"
      | none => false) with
    | none => none
    | some ri =>
      match ri.retryDelay with
      | none => none
      | some rd =>
        if rd.isEmpty then none
        else parseFloatQ (String.mk (removeFirstS rd.toList))

/-- JavaScript loose equality `code == n` for the numeric codes 503/429; a
string coerces numerically, modelled for the canonical decimal numeral. -/
def jsLooseEqNat (v : JSVal) (n : Nat) : Bool :=
  match v with
  | .num m => m == (n : Int)
  | .str s => s == toString n

/-- Lines 32-38: classification of a failure as retriable. -/
def isRetriable (e : ApiError) : Bool :=
  (match e.code with
   | some c =>
     jsLooseEqNat c 503 || jsLooseEqNat c 429 ||
     c == JSVal.str "UNAVAILABLE" || c == JSVal.str "RESOURCE_EXHAUSTED"
   | none => false) ||
  jsIncludes e.statusText "Overloaded" ||
  (jsIncludes (jsToLower e.message) "quota" || jsIncludes e.message "overloaded" ||
   jsIncludes e.message "429")

/-- Lines 41-68: the wait before the next attempt, given the jitter draw
`r = Math.random()`.  The default jittered delay is computed first, then the
structured retry delay overwrites it when present, then the message-parsed
delay overwrites in turn, and finally the result is capped at `maxDelay`. -/
def computeDelay (e : ApiError) (baseDelay maxDelay r : ℚ) : ℚ :=
  let d0 := baseDelay * (1 + r * (1 / 2))
  let d1 := match structuredRetrySeconds e with
    | some s => s * 1000 + 2000
    | none => d0
  let d2 := match messageRetrySeconds e.message with
    | some s => s * 1000 + 2000
    | none => d1
  min d2 maxDelay

/-- Outcome of one run of `retryWithBackoff`: the result, the number of times
the wrapped operation was invoked, and the waits slept between attempts. -/
structure RetryTrace (α : Type) where
  result : Except ApiError α
  calls : Nat
  waits : List ℚ
deriving Repr

/-- Lines 17-80, `retryWithBackoff`.  `op k` is the outcome of the `k`-th
invocation of the wrapped operation, `rnd k` the `Math.random()` draw consumed
after it; `k` is the absolute invocation index (0 at the top-level call).  The
guard `retries > 0 && isRetriable` of line 40 is split over the two cases on
`retries`: with no budget left the failure is rethrown regardless of its
class. -/
def retryWithBackoff {α : Type} (op : Nat → Except ApiError α) (rnd : Nat → ℚ) :
    Nat → ℚ → ℚ → Nat → RetryTrace α
  | 0, _, _, k =>
    match op k with
    | .ok v => ⟨.ok v, 1, []⟩
    | .error e => ⟨.error e, 1, []⟩
  | n + 1, baseDelay, maxDelay, k =>
    match op k with
    | .ok v => ⟨.ok v, 1, []⟩
    | .error e =>
      if isRetriable e then
        let delay := computeDelay e baseDelay maxDelay (rnd k)
        let t := retryWithBackoff op rnd n (min (baseDelay * 2) maxDelay) maxDelay (k + 1)
        ⟨t.result, t.calls + 1, delay :: t.waits⟩
      else ⟨.error e, 1, []⟩

example : (retryWithBackoff (fun _ => (.ok 7 : Except ApiError Nat))
    (fun _ => 0) 5 3000 120000 0).calls = 1 := by rfl

/-! ## Data model (src/types.ts) -/

/-- One cell value of a row: `string | number | null` (types.ts `RowData`). -/
inductive CellValue where
  | num (q : ℚ)
  | str (s : String)
  | null
deriving DecidableEq, Repr

/-- `RowData = Record<string, string | number | null>`: a row object, as the
association list of its fields in insertion order. -/
abbrev RowData := List (String × CellValue)

/-- A column definition (types.ts `Column`); the `type` union
(`text`/`number`/`date`/`time`/`select`/`status`) is carried as a string, and
the optional `subLabel`/`group` as `Option` (absent = `none`). -/
structure Column where
  key : String
  label : String
  subLabel : Option String
  type : String
  group : Option String
deriving DecidableEq, Repr

/-- A table template (types.ts `TableTemplate`); `defaultRows : number` is
modelled as an integer. -/
structure TableTemplate where
  id : String
  name : String
  description : String
  context : String
  columns : List Column
  defaultRows : Int
  aiRules : String
deriving DecidableEq, Repr

/-- The simulation configuration (types.ts `SimulationConfig`). -/
structure SimulationConfig where
  fillRate : Int
  anomalyChance : Int
  mode : String
  targetMonth : String
deriving DecidableEq, Repr

/-- JavaScript truthiness of an optional string (`undefined` and `''` are
falsy). -/
def jsTruthy (s : Option String) : Bool :=
  match s with
  | none => false
  | some t => !t.isEmpty

/-! ## Schema builder (geminiService.ts lines 92-111 and 205-224) -/

/-- Scalar kinds of the `@google/genai` `Type` enum used by this code. -/
inductive SchemaType where
  | NUMBER
  | STRING
  | ARRAY
  | OBJECT
deriving DecidableEq, Repr

/-- A per-column property schema. -/
structure PropSchema where
  type : SchemaType
  nullable : Bool
  description : String
deriving DecidableEq, Repr

/-- The `items` object schema: a property record (insertion-ordered) plus the
`required` key list. -/
structure ObjectSchema where
  properties : List (String × PropSchema)
  required : List String
deriving DecidableEq, Repr

/-- JavaScript object property assignment `m[k] = v`: overwrite in place when
the key exists, append otherwise. -/
def recordSet (m : List (String × PropSchema)) (k : String) (v : PropSchema) :
    List (String × PropSchema) :=
  if m.any (fun p => p.1 == k) then
    m.map (fun p => if p.1 == k then (k, v) else p)
  else m ++ [(k, v)]

/-- The description string of lines 99 and 212:
`Column: ${label} ${subLabel ? ʻ(${subLabel})ʼ : ''}. Group: ${group || 'None'}`. -/
def columnDescription (col : Column) : String :=
  "Column: " ++ col.label ++ " " ++
  (match col.subLabel with
   | some s => if s.isEmpty then "" else "(" ++ s ++ ")"
   | none => "") ++
  ". Group: " ++
  (match col.group with
   | some g => if g.isEmpty then "None" else g
   | none => "None")

/-- The property schema built for one column (lines 96-100 / 209-213):
`Type.NUMBER` for `col.type === 'number'`, `Type.STRING` otherwise, always
nullable. -/
def columnProp (col : Column) : PropSchema :=
  ⟨if col.type == "number" then SchemaType.NUMBER else SchemaType.STRING,
   true, columnDescription col⟩

/-- The `forEach` of lines 95-102 / 208-215: one pass over the columns filling
the property record and pushing every key onto `requiredFields`. -/
def buildResponseSchema (cols : List Column) : ObjectSchema :=
  let r := cols.foldl
    (fun (acc : List (String × PropSchema) × List String) col =>
      (recordSet acc.1 col.key (columnProp col), acc.2 ++ [col.key]))
    ([], [])
  ⟨r.1, r.2⟩

/-! ## The oracle interface and error results -/

/-- The part of `GenerateContentResponse` this code reads: `response.text`
(`string | undefined`). -/
structure GenResponse where
  text : Option String
deriving DecidableEq, Repr

/-- Failures a core operation can finish with: the missing-credential throw of
`getClient` (line 8), a failure propagated out of `retryWithBackoff`, or a
`JSON.parse` SyntaxError rethrown by the catch block (recorded with the
offending text). -/
inductive GenError where
  | apiKeyMissing
  | api (e : ApiError)
  | parseFail (text : String)
deriving DecidableEq, Repr

/-! ## Row auto-fix (geminiService.ts lines 199-262, `fixDataRows`)

The oracle call is `oracle k` for the `k`-th attempt of the retry wrapper, and
`parse` models `JSON.parse` on the response text (`none` = SyntaxError
thrown).  Note the shape of lines 253-257: the original rows come back only
when `response.text` is falsy (absent or empty); a thrown SyntaxError lands in
the catch block of lines 258-261, which rethrows it. -/

def fixDataRows (apiKey : Option String) (rows : List RowData)
    (tmpl : TableTemplate) (oracle : Nat → Except ApiError GenResponse)
    (parse : String → Option (List RowData)) (rnd : Nat → ℚ) :
    Except GenError (List RowData) :=
  if !(jsTruthy apiKey) then .error .apiKeyMissing
  else
    let _schema := buildResponseSchema tmpl.columns
    match (retryWithBackoff oracle rnd 5 3000 120000 0).result with
    | .error e => .error (.api e)
    | .ok resp =>
      match resp.text with
      | none => .ok rows
      | some t =>
        if t.isEmpty then .ok rows
        else
          match parse t with
          | some fixed => .ok fixed
          | none => .error (.parseFail t)

/-! ## Batch generation (geminiService.ts lines 82-197, `generateTableData`) -/

/-- Line 118: `const BATCH_SIZE = 40`. -/
def BATCH_SIZE : Nat := 40

/-- The batch-specific request data of lines 124-126 that parameterise one
oracle call: the 0-based batch index, `startDay = i*BATCH_SIZE + 1` and
`currentBatchSize = Math.min(BATCH_SIZE, totalRows - allRows.length)` (the row
count the prompt of line 168 asks for). -/
structure BatchRequest where
  batchIndex : Nat
  startDay : Nat
  size : Int
deriving DecidableEq, Repr

/-- Observable outcome of one `generateTableData` run: the returned rows (or
the propagated failure), the batch requests issued in order, the progress
messages emitted in order, and the total number of oracle invocations
(retries included). -/
structure GenTrace where
  result : Except GenError (List RowData)
  requests : List BatchRequest
  progress : List String
  calls : Nat
deriving Repr

/-- The `for` loop of lines 123-194.  `oracle i k` is the outcome of the
`k`-th attempt of batch `i`, `rnd i k` the corresponding jitter draw, `parse`
models `JSON.parse`.  `fuel` is the number of remaining iterations (`batches -
i` at entry), so the recursion mirrors `i < batches`.  Per iteration: the
batch size and start offset are computed (lines 124-126), a progress message
is recorded (line 129), the request runs through `retryWithBackoff` (line
174); a failure aborts the whole call (lines 190-193), a falsy `response.text`
contributes no rows (line 186), a parse failure is the rethrown SyntaxError,
and otherwise the decoded rows are appended (line 188).  The 2000 ms pacing
sleep of line 134 has no observable effect in this model and is not recorded. -/
def genLoop (oracle : Nat → Nat → Except ApiError GenResponse)
    (parse : String → Option (List RowData)) (rnd : Nat → Nat → ℚ)
    (totalRows : Int) (batches : Nat) :
    Nat → List RowData → Nat → GenTrace
  | _, allRows, 0 => ⟨.ok allRows, [], [], 0⟩
  | i, allRows, fuel + 1 =>
    let currentBatchSize := min (BATCH_SIZE : Int) (totalRows - allRows.length)
    let req : BatchRequest := ⟨i, i * BATCH_SIZE + 1, currentBatchSize⟩
    let msg := "Generating batch " ++ toString (i + 1) ++ " of " ++
      toString batches ++ "..."
    let rt := retryWithBackoff (oracle i) (rnd i) 5 3000 120000 0
    match rt.result with
    | .error e => ⟨.error (.api e), [req], [msg], rt.calls⟩
    | .ok resp =>
      match resp.text with
      | none =>
        let rest := genLoop oracle parse rnd totalRows batches (i + 1) allRows fuel
        ⟨rest.result, req :: rest.requests, msg :: rest.progress, rt.calls + rest.calls⟩
      | some t =>
        if t.isEmpty then
          let rest := genLoop oracle parse rnd totalRows batches (i + 1) allRows fuel
          ⟨rest.result, req :: rest.requests, msg :: rest.progress, rt.calls + rest.calls⟩
        else
          match parse t with
          | none => ⟨.error (.parseFail t), [req], [msg], rt.calls⟩
          | some newRows =>
            let rest := genLoop oracle parse rnd totalRows batches (i + 1)
              (allRows ++ newRows) fuel
            ⟨rest.result, req :: rest.requests, msg :: rest.progress, rt.calls + rest.calls⟩

/-- Line 120: `Math.ceil(totalRows / BATCH_SIZE)` over exact rationals. -/
def batchCountOf (totalRows : Int) : Int :=
  ⌈(totalRows : ℚ) / (BATCH_SIZE : ℚ)⌉

/-- Lines 82-197, `generateTableData`: construct the client (missing
credential fails immediately), build the response schema, then run the batch
loop with `allRows = []`.  The configuration only conditions the prompt text
and sampling temperature, which are not observable in this model. -/
def generateTableData (apiKey : Option String) (tmpl : TableTemplate)
    (_config : SimulationConfig)
    (oracle : Nat → Nat → Except ApiError GenResponse)
    (parse : String → Option (List RowData)) (rnd : Nat → Nat → ℚ) : GenTrace :=
  if !(jsTruthy apiKey) then ⟨.error .apiKeyMissing, [], [], 0⟩
  else
    let _schema := buildResponseSchema tmpl.columns
    let totalRows := tmpl.defaultRows
    let batches := (batchCountOf totalRows).toNat
    genLoop oracle parse rnd totalRows batches 0 [] batches

/-- Computable characterization of `batchCountOf` by Euclidean division,
used to evaluate it on concrete inputs. -/
theorem batchCountOf_ediv (t : Int) : batchCountOf t = -(-t / 40) := by
  have h1 : batchCountOf t = ⌈((t : ℚ)) / (((40 : ℕ) : ℤ) : ℚ)⌉ := by
    norm_num [batchCountOf, BATCH_SIZE]
  rw [h1,
    show ((t : ℚ)) / (((40 : ℕ) : ℤ) : ℚ) = -((((-t : ℤ) : ℚ)) / (((40 : ℕ)) : ℚ)) by
      push_cast; ring,
    Int.ceil_neg, Rat.floor_intCast_div_natCast]
  norm_num

example : batchCountOf 70 = 2 := by rw [batchCountOf_ediv]; decide
example : batchCountOf 31 = 1 := by rw [batchCountOf_ediv]; decide
example : batchCountOf 0 = 0 := by rw [batchCountOf_ediv]; decide
example : batchCountOf (-5) = 0 := by rw [batchCountOf_ediv]; decide
example : batchCountOf 40 = 1 := by rw [batchCountOf_ediv]; decide
example : batchCountOf 41 = 2 := by rw [batchCountOf_ediv]; decide

/-! ## Characterization of successful generation runs -/

/-- Concatenation, in batch order, of the decoded rows of batches
`i, i+1, ..., i+m-1`. -/
def chunkRows (rws : Nat → List RowData) : Nat → Nat → List RowData
  | _, 0 => []
  | i, m + 1 => rws i ++ chunkRows rws (i + 1) m

/-- The batch requests issued for batches `i, ..., i+m-1` of a run in which
every batch decodes to exactly its requested row count (so that
`allRows.length = 40*i` on entry to batch `i`). -/
def chunkReqs (t : Int) : Nat → Nat → List BatchRequest
  | _, 0 => []
  | i, m + 1 => ⟨i, i * 40 + 1, min (40 : Int) (t - 40 * i)⟩ :: chunkReqs t (i + 1) m

/-- The progress messages emitted for batches `i, ..., i+m-1`. -/
def chunkMsgs (batches : Nat) : Nat → Nat → List String
  | _, 0 => []
  | i, m + 1 =>
    ("Generating batch " ++ toString (i + 1) ++ " of " ++ toString batches ++ "...") ::
      chunkMsgs batches (i + 1) m

/-- Batch `j` succeeds on its first attempt, with a nonempty response text
`txt j` that decodes to the rows `rws j`. -/
def BatchOk (oracle : Nat → Nat → Except ApiError GenResponse)
    (parse : String → Option (List RowData)) (txt : Nat → String)
    (rws : Nat → List RowData) (j : Nat) : Prop :=
  oracle j 0 = .ok ⟨some (txt j)⟩ ∧ (txt j).isEmpty = false ∧
    parse (txt j) = some (rws j)

theorem genLoop_step_ok (oracle : Nat → Nat → Except ApiError GenResponse)
    (parse : String → Option (List RowData)) (rnd : Nat → Nat → ℚ)
    (txt : Nat → String) (rws : Nat → List RowData) (t : Int) (B i : Nat)
    (acc : List RowData) (fuel : Nat)
    (h : BatchOk oracle parse txt rws i) :
    genLoop oracle parse rnd t B i acc (fuel + 1) =
      ⟨(genLoop oracle parse rnd t B (i + 1) (acc ++ rws i) fuel).result,
        ⟨i, i * 40 + 1, min (40 : Int) (t - acc.length)⟩ ::
          (genLoop oracle parse rnd t B (i + 1) (acc ++ rws i) fuel).requests,
        ("Generating batch " ++ toString (i + 1) ++ " of " ++ toString B ++ "...") ::
          (genLoop oracle parse rnd t B (i + 1) (acc ++ rws i) fuel).progress,
        1 + (genLoop oracle parse rnd t B (i + 1) (acc ++ rws i) fuel).calls⟩ := by
  obtain ⟨h1, h2, h3⟩ := h
  simp [genLoop, retryWithBackoff, h1, h2, h3, BATCH_SIZE]

theorem genLoop_step_fail (oracle : Nat → Nat → Except ApiError GenResponse)
    (parse : String → Option (List RowData)) (rnd : Nat → Nat → ℚ)
    (t : Int) (B i : Nat) (acc : List RowData) (fuel : Nat) (e : ApiError)
    (h : (retryWithBackoff (oracle i) (rnd i) 5 3000 120000 0).result = .error e) :
    (genLoop oracle parse rnd t B i acc (fuel + 1)).result = .error (.api e) := by
  simp [genLoop, h]

theorem genLoop_run_ok (oracle : Nat → Nat → Except ApiError GenResponse)
    (parse : String → Option (List RowData)) (rnd : Nat → Nat → ℚ)
    (txt : Nat → String) (rws : Nat → List RowData) (t : Int) (B : Nat)
    (hlb : 40 * (B : Int) < t + 40) :
    ∀ (m i : Nat) (acc : List RowData), i + m = B →
      (0 < m → (acc.length : Int) = 40 * i) →
      (∀ j, j < B → BatchOk oracle parse txt rws j) →
      (∀ j, j < B → ((rws j).length : Int) = min 40 (t - 40 * j)) →
      genLoop oracle parse rnd t B i acc m =
        ⟨.ok (acc ++ chunkRows rws i m), chunkReqs t i m, chunkMsgs B i m, m⟩ := by
  intro m
  induction m with
  | zero => intro i acc _ _ _ _; simp [genLoop, chunkRows, chunkReqs, chunkMsgs]
  | succ n ih =>
    intro i acc hiB hacc hok hrws
    have hiltB : i < B := by omega
    rw [genLoop_step_ok oracle parse rnd txt rws t B i acc n (hok i hiltB)]
    have hlacc : (acc.length : Int) = 40 * i := hacc (by omega)
    have hrec : genLoop oracle parse rnd t B (i + 1) (acc ++ rws i) n =
        ⟨.ok ((acc ++ rws i) ++ chunkRows rws (i + 1) n), chunkReqs t (i + 1) n,
          chunkMsgs B (i + 1) n, n⟩ := by
      apply ih (i + 1) (acc ++ rws i) (by omega) _ hok hrws
      intro hn
      have hL : ((rws i).length : Int) = min 40 (t - 40 * i) := hrws i hiltB
      have hmin : min (40 : Int) (t - 40 * i) = 40 := by
        have : 40 * ((i : Int) + 1) ≤ 40 * (B : Int) - 40 := by
          have : (i : Int) + 2 ≤ (B : Int) := by exact_mod_cast by omega
          linarith
        have : (40 : Int) ≤ t - 40 * i := by linarith
        omega
      simp only [List.length_append]
      push_cast
      rw [hlacc]
      rw [hL, hmin]
      ring
    rw [hrec]
    simp [chunkRows, chunkReqs, chunkMsgs, hlacc, List.append_assoc, Nat.add_comm]

theorem genLoop_run_error (oracle : Nat → Nat → Except ApiError GenResponse)
    (parse : String → Option (List RowData)) (rnd : Nat → Nat → ℚ)
    (txt : Nat → String) (rws : Nat → List RowData) (t : Int) (B : Nat)
    (efail : ApiError) :
    ∀ (m i : Nat) (acc : List RowData) (k : Nat), i + m = B → i ≤ k → k < B →
      (∀ j, j < k → BatchOk oracle parse txt rws j) →
      (retryWithBackoff (oracle k) (rnd k) 5 3000 120000 0).result = .error efail →
      (genLoop oracle parse rnd t B i acc m).result = .error (.api efail) := by
  intro m
  induction m with
  | zero => intro i acc k h1 h2 h3 _ _; omega
  | succ n ih =>
    intro i acc k h1 h2 h3 hpre hfail
    rcases Nat.eq_or_lt_of_le h2 with heq | hlt
    · subst heq
      exact genLoop_step_fail oracle parse rnd t B i acc n efail hfail
    · rw [genLoop_step_ok oracle parse rnd txt rws t B i acc n (hpre i hlt)]
      exact ih (i + 1) (acc ++ rws i) k (by omega) hlt h3 hpre hfail

theorem chunkReqs_length (t : Int) : ∀ (m i : Nat), (chunkReqs t i m).length = m := by
  intro m
  induction m with
  | zero => intro i; rfl
  | succ n ih => intro i; simp [chunkReqs, ih]

theorem chunkReqs_getElem (t : Int) : ∀ (m i k : Nat), k < m →
    (chunkReqs t i m)[k]? =
      some ⟨i + k, (i + k) * 40 + 1, min (40 : Int) (t - 40 * (i + k))⟩ := by
  intro m
  induction m with
  | zero => intro i k hk; exact absurd hk (Nat.not_lt_zero k)
  | succ n ih =>
    intro i k hk
    cases k with
    | zero => simp [chunkReqs]
    | succ k' =>
      have h := ih (i + 1) k' (by omega)
      rw [show chunkReqs t i (n + 1) =
            ⟨i, i * 40 + 1, min (40 : Int) (t - 40 * i)⟩ :: chunkReqs t (i + 1) n from rfl,
        List.getElem?_cons_succ, h]
      simp only [Option.some.injEq, BatchRequest.mk.injEq]
      refine ⟨by omega, by omega, by omega⟩

theorem chunkReqs_sum (t : Int) : ∀ (m i : Nat), 0 < m →
    t ≤ 40 * (((i + m : Nat)) : Int) → 40 * (((i + m : Nat)) : Int) < t + 40 →
    ((chunkReqs t i m).map BatchRequest.size).sum = t - 40 * i := by
  intro m
  induction m with
  | zero => intro i h; omega
  | succ n ih =>
    intro i _ hub hlb
    cases n with
    | zero =>
      simp only [chunkReqs, List.map_cons, List.map_nil, List.sum_cons, List.sum_nil]
      push_cast at hub
      omega
    | succ n' =>
      rw [show chunkReqs t i (n' + 1 + 1) =
            ⟨i, i * 40 + 1, min (40 : Int) (t - 40 * i)⟩ :: chunkReqs t (i + 1) (n' + 1)
            from rfl,
        List.map_cons, List.sum_cons,
        ih (i + 1) (by omega) (by push_cast at hub ⊢; linarith)
          (by push_cast at hlb ⊢; linarith)]
      push_cast at hlb ⊢
      omega

theorem chunkRows_len (rws : Nat → List RowData) (t : Int) : ∀ (m i : Nat),
    (∀ j, i ≤ j → j < i + m → ((rws j).length : Int) = min 40 (t - 40 * j)) →
    t ≤ 40 * (((i + m : Nat)) : Int) → 40 * (((i + m : Nat)) : Int) < t + 40 →
    0 < m →
    ((chunkRows rws i m).length : Int) = t - 40 * i := by
  intro m
  induction m with
  | zero => intro i _ _ _ h; omega
  | succ n ih =>
    intro i hlen hub hlb _
    cases n with
    | zero =>
      simp only [chunkRows, List.length_append, List.length_nil]
      have h := hlen i (le_refl i) (by omega)
      push_cast at hub ⊢
      omega
    | succ n' =>
      rw [show chunkRows rws i (n' + 1 + 1) = rws i ++ chunkRows rws (i + 1) (n' + 1)
            from rfl,
        List.length_append]
      have h := hlen i (le_refl i) (by omega)
      have hrest : ((chunkRows rws (i + 1) (n' + 1)).length : Int) = t - 40 * ((i + 1 : Nat)) := by
        apply ih (i + 1) (fun j hj1 hj2 => hlen j (by omega) (by omega))
          (by push_cast at hub ⊢; linarith) (by push_cast at hlb ⊢; linarith) (by omega)
      push_cast at hlb hrest ⊢
      omega

theorem chunkRows_getElem (rws : Nat → List RowData) (t : Int) : ∀ (m i j : Nat),
    (∀ k, i ≤ k → k < i + m → ((rws k).length : Int) = min 40 (t - 40 * k)) →
    t ≤ 40 * (((i + m : Nat)) : Int) → 40 * (((i + m : Nat)) : Int) < t + 40 →
    40 * (i : Int) + (j : Int) < t →
    (chunkRows rws i m)[j]? = (rws (i + j / 40))[j % 40]? := by
  intro m
  induction m with
  | zero => intro i j _ hub _ hj; push_cast at hub; omega
  | succ n ih =>
    intro i j hlen hub hlb hj
    have hLi := hlen i (le_refl i) (by omega)
    cases Nat.lt_or_ge j (rws i).length with
    | inl hlt =>
      have hj40 : j < 40 := by omega
      rw [chunkRows, List.getElem?_append_left hlt,
        show i + j / 40 = i from by omega, show j % 40 = j from by omega]
    | inr hge =>
      cases n with
      | zero =>
        exfalso
        push_cast at hub
        omega
      | succ n' =>
        have hLi40 : (rws i).length = 40 := by
          push_cast at hlb
          omega
        rw [chunkRows, List.getElem?_append_right hge]
        have h := ih (i + 1) (j - (rws i).length)
          (fun k hk1 hk2 => hlen k (by omega) (by omega))
          (by push_cast at hub ⊢; linarith) (by push_cast at hlb ⊢; linarith)
          (by push_cast at hj ⊢; omega)
        rw [h, show i + 1 + (j - (rws i).length) / 40 = i + j / 40 from by omega,
          show (j - (rws i).length) % 40 = j % 40 from by omega]

theorem batchCount_le (t : Int) : t ≤ 40 * batchCountOf t := by
  have hbc : batchCountOf t = ⌈(t : ℚ) / (40 : ℚ)⌉ := by
    norm_num [batchCountOf, BATCH_SIZE]
  have h := Int.le_ceil ((t : ℚ) / (40 : ℚ))
  rw [div_le_iff₀ (by norm_num : (0 : ℚ) < 40)] at h
  rw [hbc]
  have : (t : ℚ) ≤ 40 * (⌈(t : ℚ) / (40 : ℚ)⌉ : ℚ) := by linarith
  exact_mod_cast this

theorem batchCount_lt (t : Int) : 40 * batchCountOf t < t + 40 := by
  have hbc : batchCountOf t = ⌈(t : ℚ) / (40 : ℚ)⌉ := by
    norm_num [batchCountOf, BATCH_SIZE]
  have h := Int.ceil_lt_add_one ((t : ℚ) / (40 : ℚ))
  rw [hbc]
  have : 40 * (⌈(t : ℚ) / (40 : ℚ)⌉ : ℚ) < (t : ℚ) + 40 := by
    rw [div_add' _ _ _ (by norm_num : (40 : ℚ) ≠ 0)] at h
    have := (lt_div_iff₀ (by norm_num : (0 : ℚ) < 40)).mp h
    linarith
  exact_mod_cast this

theorem lt_batchCount_iff (t : Int) (j : Nat) :
    j < (batchCountOf t).toNat ↔ 40 * (j : Int) < t := by
  have hbc : batchCountOf t = ⌈(t : ℚ) / (40 : ℚ)⌉ := by
    norm_num [batchCountOf, BATCH_SIZE]
  rw [Int.lt_toNat, hbc, Int.lt_ceil, lt_div_iff₀ (by norm_num : (0 : ℚ) < 40)]
  have hcast : (((j : Int) : ℚ) * 40 < (t : ℚ)) ↔ ((j : Int) * 40 < t) := by
    constructor
    · intro h; exact_mod_cast h
    · intro h; exact_mod_cast h
  rw [hcast]
  omega


/-! ## Concrete failure fixtures -/

/-- A plain 429 rate-limit failure. -/
def e429 : ApiError := ⟨some (JSVal.num 429), "Too Many Requests", "", none⟩

/-- A plain 400 failure, carrying none of the retriable markers. -/
def e400 : ApiError := ⟨some (JSVal.num 400), "Bad Request", "", none⟩

example : isRetriable e429 = true := by decide
example : isRetriable e400 = false := by decide

/-- C1: with the default budget `retries = 5`, an operation failing on every
invocation with a code-429 failure is invoked at most `5 + 1 = 6` times in
total before the failure is propagated; an operation whose failure carries
code 400 (and no retriable marker) is invoked exactly once and its failure
propagates immediately. -/
theorem claim_C1 {α : Type} (op : Nat → Except ApiError α) (rnd : Nat → ℚ)
    (err : Nat → ApiError)
    (hop : ∀ n, op n = .error (err n))
    (h429 : ∀ n, (err n).code = some (JSVal.num 429))
    (op2 : Nat → Except ApiError α) (e : ApiError)
    (hop2 : op2 0 = .error e) (_h400 : e.code = some (JSVal.num 400))
    (hnr : isRetriable e = false) :
    ((retryWithBackoff op rnd 5 3000 120000 0).calls ≤ 6 ∧
      (retryWithBackoff op rnd 5 3000 120000 0).result = .error (err 5)) ∧
    ((retryWithBackoff op2 rnd 5 3000 120000 0).calls = 1 ∧
      (retryWithBackoff op2 rnd 5 3000 120000 0).result = .error e) := by
  have hr : ∀ n, isRetriable (err n) = true := by
    intro n
    simp [isRetriable, h429 n, jsLooseEqNat]
  refine ⟨⟨?_, ?_⟩, ?_, ?_⟩ <;>
    simp [retryWithBackoff, hop, hr, hop2, hnr]

/-- Witness for C1: the constant 429 failure and the constant 400 failure. -/
theorem claim_C1_witness :
    ((retryWithBackoff (fun _ => (.error e429 : Except ApiError Nat)) (fun _ => 0)
        5 3000 120000 0).calls ≤ 6 ∧
      (retryWithBackoff (fun _ => (.error e429 : Except ApiError Nat)) (fun _ => 0)
        5 3000 120000 0).result = .error e429) ∧
    ((retryWithBackoff (fun _ => (.error e400 : Except ApiError Nat)) (fun _ => 0)
        5 3000 120000 0).calls = 1 ∧
      (retryWithBackoff (fun _ => (.error e400 : Except ApiError Nat)) (fun _ => 0)
        5 3000 120000 0).result = .error e400) :=
  claim_C1 (fun _ => .error e429) (fun _ => 0) (fun _ => e429)
    (fun _ => rfl) (fun _ => rfl)
    (fun _ => .error e400) e400 rfl rfl (by decide)

/-- A RetryInfo detail entry carrying a 10-second structured delay. -/
def riDetail10 : RetryDetail :=
  ⟨some "type.googleapis.com/google.rpc.RetryInfo", some "10s"⟩

/-- A failure carrying both a structured retry delay (10 s) and a
"retry in 50s" message pattern. -/
def eBoth : ApiError :=
  ⟨some (JSVal.num 429), "Please retry in 50s.", "", some [riDetail10]⟩

/-- A failure carrying only the structured retry delay (10 s). -/
def eStruct : ApiError :=
  ⟨some (JSVal.num 429), "boom", "", some [riDetail10]⟩

/-- A failure carrying only the "retry in 50s" message pattern. -/
def eMsg : ApiError :=
  ⟨some (JSVal.num 429), "Please retry in 50s.", "", none⟩

/-- A retriable failure with no retry-delay information at all. -/
def ePlain : ApiError := ⟨some (JSVal.num 429), "boom", "", none⟩

theorem parseFloatQ_ten : parseFloatQ "10" = some 10 := by
  have h : parseFloatSplit "10" = some (false, ['1', '0'], []) := by decide
  have hd : digitsToNat ['1', '0'] = 10 := by decide
  have hd0 : digitsToNat [] = 0 := by decide
  simp [parseFloatQ, h, hd, hd0]

theorem parseFloatQ_fifty : parseFloatQ "50" = some 50 := by
  have h : parseFloatSplit "50" = some (false, ['5', '0'], []) := by decide
  have hd : digitsToNat ['5', '0'] = 50 := by decide
  have hd0 : digitsToNat [] = 0 := by decide
  simp [parseFloatQ, h, hd, hd0]

theorem structuredSeconds_riDetail10 (code : Option JSVal) (msg st : String) :
    structuredRetrySeconds ⟨code, msg, st, some [riDetail10]⟩ = some 10 := by
  show parseFloatQ (String.mk (removeFirstS "10s".toList)) = some 10
  have hrm : removeFirstS "10s".toList = ['1', '0'] := by decide
  rw [hrm]
  exact parseFloatQ_ten

theorem messageSeconds_retry50 :
    messageRetrySeconds "Please retry in 50s." = some 50 := by
  rw [messageRetrySeconds,
    show findRetryGroup "Please retry in 50s.".toList = some ['5', '0'] from by decide]
  exact parseFloatQ_fifty

/-- C4 counterexample: on a failure carrying both a structured retry-delay
field of 10 seconds and a "retry in 50s" message pattern, the wait is
52000 ms — the message-parsed value, which overwrites the structured one
because the message check of lines 57-65 runs unguarded after the
structured check of lines 44-53 — not the 12000 ms the claim's priority
order prescribes. -/
theorem claim_C4_counterexample :
    structuredRetrySeconds eBoth = some 10 ∧
    messageRetrySeconds eBoth.message = some 50 ∧
    computeDelay eBoth 3000 120000 0 = 52000 ∧
    (retryWithBackoff (fun _ => (.error eBoth : Except ApiError Nat)) (fun _ => 0)
        5 3000 120000 0).waits.head? = some 52000 ∧
    (52000 : ℚ) ≠ 10 * 1000 + 2000 := by
  have h1 : structuredRetrySeconds eBoth = some 10 :=
    structuredSeconds_riDetail10 (some (JSVal.num 429)) "Please retry in 50s." ""
  have h2 : messageRetrySeconds eBoth.message = some 50 := messageSeconds_retry50
  have h3 : computeDelay eBoth 3000 120000 0 = 52000 := by
    simp only [computeDelay, h1, h2]
    norm_num [min_def]
  refine ⟨h1, h2, h3, ?_, by norm_num⟩
  have hre : isRetriable eBoth = true := by decide
  simp [retryWithBackoff, hre, h3]

/-- C4 (amended): for every retriable failure, the wait before the next
attempt is `min(N*1000 + 2000, maxDelay)` when the message contains a
"retry in N s" pattern (this takes priority, being applied last); else
`min(s*1000 + 2000, maxDelay)` when a structured retry-delay field of `s`
seconds is present; else `min(baseDelay*(1 + r*0.5), maxDelay)` for the
jitter draw `r`; and the wait recorded by `retryWithBackoff` before the next
attempt is exactly this `computeDelay` value. -/
theorem claim_C4 {α : Type} (e : ApiError) (b m r : ℚ)
    (hre : isRetriable e = true) :
    (∀ s, structuredRetrySeconds e = some s →
      messageRetrySeconds e.message = none →
      computeDelay e b m r = min (s * 1000 + 2000) m) ∧
    (∀ s, messageRetrySeconds e.message = some s →
      computeDelay e b m r = min (s * 1000 + 2000) m) ∧
    (structuredRetrySeconds e = none → messageRetrySeconds e.message = none →
      computeDelay e b m r = min (b * (1 + r * (1 / 2))) m) ∧
    (∀ (op : Nat → Except ApiError α) (rnd : Nat → ℚ) (n : Nat),
      op 0 = .error e →
      (retryWithBackoff op rnd (n + 1) b m 0).waits.head? =
        some (computeDelay e b m (rnd 0))) := by
  refine ⟨?_, ?_, ?_, ?_⟩
  · intro s h1 h2; simp [computeDelay, h1, h2]
  · intro s h2; simp [computeDelay, h2]
  · intro h1 h2; simp [computeDelay, h1, h2]
  · intro op rnd n hop
    simp [retryWithBackoff, hop, hre]

/-- Witness for C4 at the three concrete failures. -/
theorem claim_C4_witness :
    computeDelay eStruct 3000 120000 0 = min ((10 : ℚ) * 1000 + 2000) 120000 ∧
    computeDelay eMsg 3000 120000 0 = min ((50 : ℚ) * 1000 + 2000) 120000 ∧
    computeDelay ePlain 3000 120000 (1 / 2) =
      min ((3000 : ℚ) * (1 + (1 / 2) * (1 / 2))) 120000 ∧
    (retryWithBackoff (fun _ => (.error ePlain : Except ApiError Nat)) (fun _ => 0)
        5 3000 120000 0).waits.head? = some (computeDelay ePlain 3000 120000 0) :=
  ⟨(claim_C4 (α := Nat) eStruct 3000 120000 0 (by decide)).1 10
      (structuredSeconds_riDetail10 (some (JSVal.num 429)) "boom" "") (by decide),
   (claim_C4 (α := Nat) eMsg 3000 120000 0 (by decide)).2.1 50 messageSeconds_retry50,
   (claim_C4 (α := Nat) ePlain 3000 120000 (1 / 2) (by decide)).2.2.1 (by decide) (by decide),
   (claim_C4 (α := Nat) ePlain 3000 120000 0 (by decide)).2.2.2
     (fun _ => .error ePlain) (fun _ => 0) 4 rfl⟩

/-- The retriability classification as claim C5 words it: retriable iff the
carried status/code is 503, 429, UNAVAILABLE or RESOURCE_EXHAUSTED, or the
message text contains an overload, quota or 429 marker as a case-insensitive
substring. -/
def retriableClaimC5 (e : ApiError) : Bool :=
  (match e.code with
   | some c =>
     jsLooseEqNat c 503 || jsLooseEqNat c 429 ||
     c == JSVal.str "UNAVAILABLE" || c == JSVal.str "RESOURCE_EXHAUSTED"
   | none => false) ||
  jsIncludes (jsToLower e.message) "overloaded" ||
  jsIncludes (jsToLower e.message) "quota" ||
  jsIncludes (jsToLower e.message) "429"

/-- A 500 failure whose message says "Model Overloaded" (capital O). -/
def eOverMsg : ApiError := ⟨some (JSVal.num 500), "Model Overloaded", "", none⟩

/-- A 500 failure whose statusText (not message) says "Overloaded". -/
def eOverStatus : ApiError := ⟨some (JSVal.num 500), "Internal", "Overloaded", none⟩

/-- C5 counterexample: the claimed classification differs from the code's in
both directions.  A failure whose message contains "Overloaded" with a
capital O is retriable per the claim (case-insensitive check) but not per the
code (the `message.includes('overloaded')` check of line 38 is
case-sensitive, and only the quota check lowercases).  Conversely a failure
carrying "Overloaded" only in its statusText is retriable per the code (line
37) but not per the claim, which only inspects status/code and message. -/
theorem claim_C5_counterexample :
    retriableClaimC5 eOverMsg = true ∧ isRetriable eOverMsg = false ∧
    retriableClaimC5 eOverStatus = false ∧ isRetriable eOverStatus = true := by
  refine ⟨by decide, by decide, by decide, by decide⟩

/-- The classification the code actually implements, written from the amended
claim: retriable iff the code is 503 or 429 (numeric or as the decimal
string), or exactly UNAVAILABLE or RESOURCE_EXHAUSTED, or the statusText
contains "Overloaded" (case-sensitive), or the message contains "quota"
case-insensitively, or the message contains "overloaded" or "429" as
case-sensitive substrings. -/
def retriableAmended (e : ApiError) : Bool :=
  e.code == some (JSVal.num 503) || e.code == some (JSVal.str "503") ||
  e.code == some (JSVal.num 429) || e.code == some (JSVal.str "429") ||
  e.code == some (JSVal.str "UNAVAILABLE") ||
  e.code == some (JSVal.str "RESOURCE_EXHAUSTED") ||
  jsIncludes e.statusText "Overloaded" ||
  jsIncludes (jsToLower e.message) "quota" ||
  jsIncludes e.message "overloaded" ||
  jsIncludes e.message "429"

/-- C5 (amended): a failure is classified retriable by `retryWithBackoff`
exactly per `retriableAmended`, and every failure not so classified
propagates immediately: the wrapped operation runs once and its failure is
rethrown with no wait. -/
theorem claim_C5 (e : ApiError) :
    (isRetriable e = true ↔ retriableAmended e = true) ∧
    (isRetriable e = false → ∀ (op : Nat → Except ApiError Nat) (rnd : Nat → ℚ)
      (retries : Nat) (b m : ℚ) (k : Nat), op k = .error e →
      retryWithBackoff op rnd retries b m k = ⟨.error e, 1, []⟩) := by
  constructor
  · rcases e with ⟨code, msg, st, det⟩
    rcases code with _ | c
    · simp only [isRetriable, retriableAmended, Bool.or_eq_true]
      simp
      tauto
    · rcases c with n | s
      · simp [isRetriable, retriableAmended, jsLooseEqNat]
        tauto
      · have h503 : toString (503 : Nat) = "503" := by decide
        have h429 : toString (429 : Nat) = "429" := by decide
        simp [isRetriable, retriableAmended, jsLooseEqNat, h503, h429]
        tauto
  · intro hnr op rnd retries b m k hop
    cases retries with
    | zero => simp [retryWithBackoff, hop]
    | succ n => simp [retryWithBackoff, hop, hnr]

/-- Witness for C5 at the concrete unretriable 400 failure. -/
theorem claim_C5_witness :
    (isRetriable e400 = true ↔ retriableAmended e400 = true) ∧
    retryWithBackoff (fun _ => (.error e400 : Except ApiError Nat)) (fun _ => 0)
      5 3000 120000 0 = ⟨.error e400, 1, []⟩ :=
  ⟨(claim_C5 e400).1,
   (claim_C5 e400).2 (by decide) (fun _ => .error e400) (fun _ => 0) 5 3000 120000 0 rfl⟩

/-! ## Generation fixtures -/

/-- Day column of the example template. -/
def colDay : Column := ⟨"day", "Day", none, "number", none⟩

/-- Morning pH column of the example template. -/
def colPh : Column := ⟨"ph_9am", "pH", some "7.2-7.8", "number", some "9:00 AM"⟩

/-- Corrective-action column of the example template. -/
def colAction : Column := ⟨"corrective_action", "Corrective Action", none, "text", none⟩

/-- An example template asking for 70 rows (2 batches: 40 + 30). -/
def tmpl70 : TableTemplate :=
  ⟨"pool", "Pool Log", "Monthly pool chemistry log", "Pool facility water chemistry",
   [colDay, colPh, colAction], 70, "Values must stay in range"⟩

/-- An example simulation configuration. -/
def cfgTest : SimulationConfig := ⟨90, 10, "realistic", "2025-03"⟩

/-- A sample row with every column key present. -/
def rowA : RowData :=
  [("day", CellValue.num 1), ("ph_9am", CellValue.num 7),
   ("corrective_action", CellValue.null)]

/-- 40 sample rows: the decoded response of the first batch. -/
def rowsA : List RowData := List.replicate 40 rowA

/-- 30 sample rows: the decoded response of the second batch. -/
def rowsB : List RowData := List.replicate 30 rowA

/-- Response texts of the two batches. -/
def txt70 : Nat → String := fun j => if j = 0 then "A" else "B"

/-- Decoded rows of the two batches. -/
def rws70 : Nat → List RowData := fun j => if j = 0 then rowsA else rowsB

/-- An oracle that answers batch 0 with "A" and every later batch with "B",
on the first attempt. -/
def oracle70 : Nat → Nat → Except ApiError GenResponse :=
  fun i _ => .ok ⟨some (txt70 i)⟩

/-- The test decoder. -/
def parse70 : String → Option (List RowData) :=
  fun s => if s = "A" then some rowsA else if s = "B" then some rowsB else none

/-- A constant jitter stream. -/
def rnd0 : Nat → Nat → ℚ := fun _ _ => 0

/-- C2: for positive `totalRows = template.defaultRows` and fixed batch size
40, under the precondition that every batch decodes to exactly its requested
row count, `generateTableData` issues exactly `ceil(totalRows/40)` batch
requests; batch `i` (0-based) requests `min(40, totalRows - i*40)` rows
starting at offset `i*40 + 1`; and the requested sizes sum to exactly
`totalRows` (the last batch is the remainder). -/
theorem claim_C2 (apiKey : Option String) (tmpl : TableTemplate)
    (cfg : SimulationConfig) (oracle : Nat → Nat → Except ApiError GenResponse)
    (parse : String → Option (List RowData)) (rnd : Nat → Nat → ℚ)
    (txt : Nat → String) (rws : Nat → List RowData)
    (hkey : jsTruthy apiKey = true) (ht : 0 < tmpl.defaultRows)
    (hok : ∀ j, oracle j 0 = .ok ⟨some (txt j)⟩)
    (hne : ∀ j, (txt j).isEmpty = false)
    (hp : ∀ j, parse (txt j) = some (rws j))
    (hlen : ∀ j : Nat, 40 * (j : Int) < tmpl.defaultRows →
      ((rws j).length : Int) = min 40 (tmpl.defaultRows - 40 * j)) :
    (generateTableData apiKey tmpl cfg oracle parse rnd).requests.length =
      (batchCountOf tmpl.defaultRows).toNat ∧
    (∀ i : Nat, i < (batchCountOf tmpl.defaultRows).toNat →
      (generateTableData apiKey tmpl cfg oracle parse rnd).requests[i]? =
        some ⟨i, i * 40 + 1, min (40 : Int) (tmpl.defaultRows - 40 * i)⟩) ∧
    ((generateTableData apiKey tmpl cfg oracle parse rnd).requests.map
        BatchRequest.size).sum = tmpl.defaultRows := by
  have hgen : generateTableData apiKey tmpl cfg oracle parse rnd =
      genLoop oracle parse rnd tmpl.defaultRows
        (batchCountOf tmpl.defaultRows).toNat 0 []
        (batchCountOf tmpl.defaultRows).toNat := by
    simp [generateTableData, hkey]
  have hBpos : 0 < batchCountOf tmpl.defaultRows := by
    have := batchCount_le tmpl.defaultRows
    omega
  have hBcast : (((batchCountOf tmpl.defaultRows).toNat : Int)) =
      batchCountOf tmpl.defaultRows := Int.toNat_of_nonneg (by omega)
  have hlb : 40 * (((batchCountOf tmpl.defaultRows).toNat : Nat) : Int) <
      tmpl.defaultRows + 40 := by
    rw [hBcast]; exact batchCount_lt tmpl.defaultRows
  have hub : tmpl.defaultRows ≤ 40 * (((batchCountOf tmpl.defaultRows).toNat : Nat) : Int) := by
    rw [hBcast]; exact batchCount_le tmpl.defaultRows
  have hrun := genLoop_run_ok oracle parse rnd txt rws tmpl.defaultRows
    (batchCountOf tmpl.defaultRows).toNat hlb
    (batchCountOf tmpl.defaultRows).toNat 0 [] (by omega) (by simp)
    (fun j _ => ⟨hok j, hne j, hp j⟩)
    (fun j hj => hlen j ((lt_batchCount_iff tmpl.defaultRows j).mp hj))
  rw [hgen, hrun]
  refine ⟨chunkReqs_length _ _ _, ?_, ?_⟩
  · intro i hi
    have h := chunkReqs_getElem tmpl.defaultRows (batchCountOf tmpl.defaultRows).toNat 0 i hi
    simpa using h
  · have h := chunkReqs_sum tmpl.defaultRows (batchCountOf tmpl.defaultRows).toNat 0
      (by omega) (by simpa using hub) (by simpa using hlb)
    simpa using h

/-- Witness for C2: the 70-row template split as 40 + 30. -/
theorem claim_C2_witness :
    (generateTableData (some "key") tmpl70 cfgTest oracle70 parse70 rnd0).requests.length =
      (batchCountOf tmpl70.defaultRows).toNat ∧
    (∀ i : Nat, i < (batchCountOf tmpl70.defaultRows).toNat →
      (generateTableData (some "key") tmpl70 cfgTest oracle70 parse70 rnd0).requests[i]? =
        some ⟨i, i * 40 + 1, min (40 : Int) (tmpl70.defaultRows - 40 * i)⟩) ∧
    ((generateTableData (some "key") tmpl70 cfgTest oracle70 parse70 rnd0).requests.map
        BatchRequest.size).sum = tmpl70.defaultRows :=
  claim_C2 (some "key") tmpl70 cfgTest oracle70 parse70 rnd0 txt70 rws70
    (by decide) (by decide)
    (fun j => rfl) (fun j => by simp [txt70]; split <;> decide)
    (fun j => by by_cases hj : j = 0 <;> simp [parse70, txt70, rws70, hj])
    (fun j hj => by
      have hj70 : 40 * (j : Int) < 70 := hj
      have hj2 : j < 2 := by omega
      interval_cases j <;> simp [rws70, rowsA, rowsB] <;> decide)

/-- C7: under the same all-batches-succeed-exactly precondition, the returned
row sequence is the concatenation of the per-batch decoded rows in batch
submission order (`chunkRows`, increasing start offset); it has exactly
`totalRows` rows, the row at position `j` is row `j % 40` of batch `j / 40`,
and the issued request of that batch has `startDay + j % 40 = j + 1`: row `j`
corresponds to requested offset `j + 1`. -/
theorem claim_C7 (apiKey : Option String) (tmpl : TableTemplate)
    (cfg : SimulationConfig) (oracle : Nat → Nat → Except ApiError GenResponse)
    (parse : String → Option (List RowData)) (rnd : Nat → Nat → ℚ)
    (txt : Nat → String) (rws : Nat → List RowData)
    (hkey : jsTruthy apiKey = true) (ht : 0 < tmpl.defaultRows)
    (hok : ∀ j, oracle j 0 = .ok ⟨some (txt j)⟩)
    (hne : ∀ j, (txt j).isEmpty = false)
    (hp : ∀ j, parse (txt j) = some (rws j))
    (hlen : ∀ j : Nat, 40 * (j : Int) < tmpl.defaultRows →
      ((rws j).length : Int) = min 40 (tmpl.defaultRows - 40 * j)) :
    (generateTableData apiKey tmpl cfg oracle parse rnd).result =
      .ok (chunkRows rws 0 (batchCountOf tmpl.defaultRows).toNat) ∧
    ∀ R, (generateTableData apiKey tmpl cfg oracle parse rnd).result = .ok R →
      (R.length : Int) = tmpl.defaultRows ∧
      ∀ j : Nat, (j : Int) < tmpl.defaultRows →
        R[j]? = (rws (j / 40))[j % 40]? ∧
        ∃ req, (generateTableData apiKey tmpl cfg oracle parse rnd).requests[j / 40]? =
            some req ∧ req.startDay + j % 40 = j + 1 := by
  have hgen : generateTableData apiKey tmpl cfg oracle parse rnd =
      genLoop oracle parse rnd tmpl.defaultRows
        (batchCountOf tmpl.defaultRows).toNat 0 []
        (batchCountOf tmpl.defaultRows).toNat := by
    simp [generateTableData, hkey]
  have hBpos : 0 < batchCountOf tmpl.defaultRows := by
    have := batchCount_le tmpl.defaultRows
    omega
  have hBcast : (((batchCountOf tmpl.defaultRows).toNat : Int)) =
      batchCountOf tmpl.defaultRows := Int.toNat_of_nonneg (by omega)
  have hlb : 40 * (((batchCountOf tmpl.defaultRows).toNat : Nat) : Int) <
      tmpl.defaultRows + 40 := by
    rw [hBcast]; exact batchCount_lt tmpl.defaultRows
  have hub : tmpl.defaultRows ≤ 40 * (((batchCountOf tmpl.defaultRows).toNat : Nat) : Int) := by
    rw [hBcast]; exact batchCount_le tmpl.defaultRows
  have hlen' : ∀ j, j < (batchCountOf tmpl.defaultRows).toNat →
      ((rws j).length : Int) = min 40 (tmpl.defaultRows - 40 * j) :=
    fun j hj => hlen j ((lt_batchCount_iff tmpl.defaultRows j).mp hj)
  have hrun := genLoop_run_ok oracle parse rnd txt rws tmpl.defaultRows
    (batchCountOf tmpl.defaultRows).toNat hlb
    (batchCountOf tmpl.defaultRows).toNat 0 [] (by omega) (by simp)
    (fun j _ => ⟨hok j, hne j, hp j⟩) hlen'
  rw [hgen, hrun]
  refine ⟨by simp, ?_⟩
  intro R hR
  have hReq : R = chunkRows rws 0 (batchCountOf tmpl.defaultRows).toNat := by
    simpa using hR.symm
  subst hReq
  constructor
  · have h := chunkRows_len rws tmpl.defaultRows (batchCountOf tmpl.defaultRows).toNat 0
      (fun j _ hj2 => hlen' j (by omega)) (by simpa using hub) (by simpa using hlb)
      (by omega)
    simpa using h
  · intro j hj
    have hjB : j / 40 < (batchCountOf tmpl.defaultRows).toNat := by
      rw [lt_batchCount_iff]
      have h1 : 40 * ((j / 40 : Nat) : Int) ≤ (j : Int) := by
        have := Nat.div_mul_le_self j 40
        exact_mod_cast by omega
      omega
    constructor
    · have h := chunkRows_getElem rws tmpl.defaultRows
        (batchCountOf tmpl.defaultRows).toNat 0 j
        (fun k _ hk2 => hlen' k (by omega)) (by simpa using hub) (by simpa using hlb)
        (by simpa using hj)
      simpa using h
    · refine ⟨⟨j / 40, (j / 40) * 40 + 1,
        min (40 : Int) (tmpl.defaultRows - 40 * (j / 40 : Nat))⟩, ?_,
        show (j / 40) * 40 + 1 + j % 40 = j + 1 from by omega⟩
      have h := chunkReqs_getElem tmpl.defaultRows (batchCountOf tmpl.defaultRows).toNat
        0 (j / 40) hjB
      simpa using h

/-- Witness for C7: the 70-row template split as 40 + 30. -/
theorem claim_C7_witness :
    (generateTableData (some "key") tmpl70 cfgTest oracle70 parse70 rnd0).result =
      .ok (chunkRows rws70 0 (batchCountOf tmpl70.defaultRows).toNat) ∧
    ∀ R, (generateTableData (some "key") tmpl70 cfgTest oracle70 parse70 rnd0).result = .ok R →
      (R.length : Int) = tmpl70.defaultRows ∧
      ∀ j : Nat, (j : Int) < tmpl70.defaultRows →
        R[j]? = (rws70 (j / 40))[j % 40]? ∧
        ∃ req, (generateTableData (some "key") tmpl70 cfgTest oracle70 parse70
            rnd0).requests[j / 40]? = some req ∧ req.startDay + j % 40 = j + 1 :=
  claim_C7 (some "key") tmpl70 cfgTest oracle70 parse70 rnd0 txt70 rws70
    (by decide) (by decide)
    (fun j => rfl) (fun j => by simp [txt70]; split <;> decide)
    (fun j => by by_cases hj : j = 0 <;> simp [parse70, txt70, rws70, hj])
    (fun j hj => by
      have hj70 : 40 * (j : Int) < 70 := hj
      have hj2 : j < 2 := by omega
      interval_cases j <;> simp [rws70, rowsA, rowsB] <;> decide)

/-- C8: if the batches before batch `k` succeed and batch `k`'s run through
the retry engine ends in a failure (unretriable, or budget exhausted), the
whole `generateTableData` invocation fails with that failure: the result
carries no rows, the accumulated rows of batches `0..k-1` being discarded
(all-or-nothing). -/
theorem claim_C8 (apiKey : Option String) (tmpl : TableTemplate)
    (cfg : SimulationConfig) (oracle : Nat → Nat → Except ApiError GenResponse)
    (parse : String → Option (List RowData)) (rnd : Nat → Nat → ℚ)
    (txt : Nat → String) (rws : Nat → List RowData) (k : Nat) (efail : ApiError)
    (hkey : jsTruthy apiKey = true)
    (hk : 40 * (k : Int) < tmpl.defaultRows)
    (hpre : ∀ j, j < k → oracle j 0 = .ok ⟨some (txt j)⟩ ∧ (txt j).isEmpty = false ∧
      parse (txt j) = some (rws j))
    (hfail : (retryWithBackoff (oracle k) (rnd k) 5 3000 120000 0).result = .error efail) :
    (generateTableData apiKey tmpl cfg oracle parse rnd).result = .error (.api efail) := by
  have hgen : generateTableData apiKey tmpl cfg oracle parse rnd =
      genLoop oracle parse rnd tmpl.defaultRows
        (batchCountOf tmpl.defaultRows).toNat 0 []
        (batchCountOf tmpl.defaultRows).toNat := by
    simp [generateTableData, hkey]
  rw [hgen]
  exact genLoop_run_error oracle parse rnd txt rws tmpl.defaultRows
    (batchCountOf tmpl.defaultRows).toNat efail
    (batchCountOf tmpl.defaultRows).toNat 0 [] k (by omega) (Nat.zero_le k)
    ((lt_batchCount_iff tmpl.defaultRows k).mpr hk)
    (fun j hj => hpre j hj) hfail

/-- An oracle whose batch 0 succeeds with "A" and whose batch 1 always fails
with the unretriable 400 failure. -/
def oracleFail : Nat → Nat → Except ApiError GenResponse :=
  fun i _ => if i = 0 then .ok ⟨some "A"⟩ else .error e400

/-- Witness for C8: batch 0 delivers 40 rows, batch 1 fails unretriably; the
whole invocation fails. -/
theorem claim_C8_witness :
    (generateTableData (some "key") tmpl70 cfgTest oracleFail parse70 rnd0).result =
      .error (.api e400) :=
  claim_C8 (some "key") tmpl70 cfgTest oracleFail parse70 rnd0 txt70 rws70 1 e400
    (by decide) (by decide)
    (fun j hj => by
      interval_cases j
      exact ⟨rfl, by decide, rfl⟩)
    rfl

/-- C3, behaviour of the code at the failing input: when the auto-fix
oracle's response text is non-empty but unparsable, `fixDataRows` does NOT
return the original rows — the `JSON.parse` SyntaxError is rethrown by the
catch block of lines 258-261, despite the comment "Return original if parsing
fails" on line 257.  The original rows come back only when the response text
is absent or empty (the `if (text)` guard of line 254). -/
theorem claim_C3 :
    fixDataRows (some "key") [rowA] tmpl70 (fun _ => .ok ⟨some "not json"⟩)
      (fun _ => none) (fun _ => 0) = .error (.parseFail "not json") ∧
    fixDataRows (some "key") [rowA] tmpl70 (fun _ => .ok ⟨some ""⟩)
      (fun _ => none) (fun _ => 0) = .ok [rowA] ∧
    fixDataRows (some "key") [rowA] tmpl70 (fun _ => .ok ⟨none⟩)
      (fun _ => none) (fun _ => 0) = .ok [rowA] :=
  ⟨rfl, rfl, rfl⟩

/-- An oracle whose batch 0 succeeds with "A" and whose later batches return
unparsable text. -/
def oracleGarbage : Nat → Nat → Except ApiError GenResponse :=
  fun i _ => if i = 0 then .ok ⟨some "A"⟩ else .ok ⟨some "garbage"⟩

/-- An oracle that always answers with an absent response text. -/
def oracleEmpty : Nat → Nat → Except ApiError GenResponse :=
  fun _ _ => .ok ⟨none⟩

/-- An oracle that always answers with non-empty unparsable text. -/
def oracleBadText : Nat → Nat → Except ApiError GenResponse :=
  fun _ _ => .ok ⟨some "garbage"⟩

/-- C6 counterexample: in a 70-row generation whose first batch decodes to 40
rows and whose second batch returns non-empty unparsable text, the whole
invocation fails with a decode error — the run does not continue, and the 40
accumulated rows are not returned. -/
theorem claim_C6_counterexample :
    (generateTableData (some "key") tmpl70 cfgTest oracleGarbage parse70 rnd0).result =
      .error (.parseFail "garbage") := by
  have hb : (batchCountOf tmpl70.defaultRows).toNat = 2 := by
    rw [show tmpl70.defaultRows = (70 : Int) from rfl, batchCountOf_ediv]; decide
  have hk : (!(jsTruthy (some "key"))) = false := by decide
  have hgen : generateTableData (some "key") tmpl70 cfgTest oracleGarbage parse70 rnd0 =
      genLoop oracleGarbage parse70 rnd0 tmpl70.defaultRows
        (batchCountOf tmpl70.defaultRows).toNat 0 []
        (batchCountOf tmpl70.defaultRows).toNat := by
    simp [generateTableData, hk]
  rw [hgen, hb]
  rfl

/-- C6 (amended): during `generateTableData`, a batch whose response text is
absent or empty is treated as "no rows produced": the run continues with the
previously accumulated rows passed through unchanged.  A batch whose response
text is non-empty but unparsable instead fails the entire invocation with a
decode error. -/
theorem claim_C6 (oracle : Nat → Nat → Except ApiError GenResponse)
    (parse : String → Option (List RowData)) (rnd : Nat → Nat → ℚ)
    (t : Int) (B i : Nat) (acc : List RowData) (fuel : Nat) :
    (∀ resp, (retryWithBackoff (oracle i) (rnd i) 5 3000 120000 0).result = .ok resp →
      jsTruthy resp.text = false →
      (genLoop oracle parse rnd t B i acc (fuel + 1)).result =
        (genLoop oracle parse rnd t B (i + 1) acc fuel).result) ∧
    (∀ resp s, (retryWithBackoff (oracle i) (rnd i) 5 3000 120000 0).result = .ok resp →
      resp.text = some s → s.isEmpty = false → parse s = none →
      (genLoop oracle parse rnd t B i acc (fuel + 1)).result = .error (.parseFail s)) := by
  constructor
  · intro resp hres htext
    rcases resp with ⟨text⟩
    rcases text with _ | s
    · simp [genLoop, hres]
    · have hse : s.isEmpty = true := by simpa [jsTruthy] using htext
      simp [genLoop, hres, hse]
  · intro resp s hres htext hne hparse
    rcases resp with ⟨text⟩
    cases htext
    simp [genLoop, hres, hne, hparse]

/-- Witness for C6: an absent-text batch passes the accumulator through; an
unparsable-text batch fails the run. -/
theorem claim_C6_witness :
    (genLoop oracleEmpty parse70 rnd0 70 2 0 [rowA] 1).result =
      (genLoop oracleEmpty parse70 rnd0 70 2 1 [rowA] 0).result ∧
    (genLoop oracleBadText parse70 rnd0 70 2 0 [] 1).result =
      .error (.parseFail "garbage") :=
  ⟨(claim_C6 oracleEmpty parse70 rnd0 70 2 0 [rowA] 0).1 ⟨none⟩ rfl (by decide),
   (claim_C6 oracleBadText parse70 rnd0 70 2 0 [] 0).2 ⟨some "garbage"⟩ "garbage"
     rfl rfl (by decide) rfl⟩

/-! ## Schema lemmas and row-shape soundness -/

/-- Whether a row object carries the field `k` (its value may be null). -/
def rowHasKey (r : RowData) (k : String) : Bool :=
  r.any (fun p => p.1 == k)

theorem buildResponseSchema_foldl (cols : List Column) :
    ∀ (m : List (String × PropSchema)) (req : List String),
      (cols.map Column.key).Nodup →
      (∀ c ∈ cols, m.any (fun p => p.1 == c.key) = false) →
      cols.foldl
        (fun (acc : List (String × PropSchema) × List String) col =>
          (recordSet acc.1 col.key (columnProp col), acc.2 ++ [col.key]))
        (m, req) =
      (m ++ cols.map (fun c => (c.key, columnProp c)), req ++ cols.map Column.key) := by
  induction cols with
  | nil => intro m req _ _; simp
  | cons c cs ih =>
    intro m req hnd hdisj
    simp only [List.foldl_cons]
    have hset : recordSet m c.key (columnProp c) = m ++ [(c.key, columnProp c)] := by
      rw [recordSet, if_neg]
      rw [hdisj c (List.mem_cons_self c cs)]
      simp
    rw [hset, ih (m ++ [(c.key, columnProp c)]) (req ++ [c.key])
      (by simpa using (List.nodup_cons.mp (by simpa using hnd)).2)
      ?_]
    · simp
    · intro c' hc'
      rw [List.any_append]
      have h1 : m.any (fun p => p.1 == c'.key) = false :=
        hdisj c' (List.mem_cons_of_mem c hc')
      have h2 : c.key ≠ c'.key := by
        have hnotin : c.key ∉ cs.map Column.key :=
          (List.nodup_cons.mp (by simpa using hnd)).1
        intro hEq
        exact hnotin (hEq ▸ List.mem_map_of_mem Column.key hc')
      simp [h1, h2]

theorem buildResponseSchema_required (cols : List Column) :
    (buildResponseSchema cols).required = cols.map Column.key := by
  suffices hgen : ∀ (m : List (String × PropSchema)) (req : List String),
      (cols.foldl
        (fun (acc : List (String × PropSchema) × List String) col =>
          (recordSet acc.1 col.key (columnProp col), acc.2 ++ [col.key]))
        (m, req)).2 = req ++ cols.map Column.key by
    simpa [buildResponseSchema] using hgen [] []
  induction cols with
  | nil => intro m req; simp
  | cons c cs ih => intro m req; simp [List.foldl_cons, ih]

theorem buildResponseSchema_props (cols : List Column)
    (hnd : (cols.map Column.key).Nodup) :
    (buildResponseSchema cols).properties =
      cols.map (fun c => (c.key, columnProp c)) := by
  have h := buildResponseSchema_foldl cols [] [] hnd (by intro c _; rfl)
  simpa [buildResponseSchema] using congrArg Prod.fst h

theorem lookup_map_columnProp (cols : List Column) (col : Column)
    (hnd : (cols.map Column.key).Nodup) (hmem : col ∈ cols) :
    (cols.map (fun c => (c.key, columnProp c))).lookup col.key =
      some (columnProp col) := by
  induction cols with
  | nil => cases hmem
  | cons c cs ih =>
    rcases List.mem_cons.mp hmem with hEq | hmem'
    · subst hEq
      simp [List.lookup]
    · have hne : (col.key == c.key) = false := by
        have hnotin : c.key ∉ cs.map Column.key :=
          (List.nodup_cons.mp (by simpa using hnd)).1
        have : col.key ∈ cs.map Column.key := List.mem_map_of_mem Column.key hmem'
        simp only [beq_eq_false_iff_ne, ne_eq]
        intro hEq
        exact hnotin (hEq ▸ this)
      simp only [List.map_cons, List.lookup, hne]
      exact ih (by simpa using (List.nodup_cons.mp (by simpa using hnd)).2) hmem'

theorem genLoop_rows_sound (oracle : Nat → Nat → Except ApiError GenResponse)
    (parse : String → Option (List RowData)) (rnd : Nat → Nat → ℚ)
    (P : RowData → Prop)
    (hparse : ∀ s rows, parse s = some rows → ∀ r ∈ rows, P r) :
    ∀ (m : Nat) (t : Int) (B i : Nat) (acc : List RowData), (∀ r ∈ acc, P r) →
      ∀ R, (genLoop oracle parse rnd t B i acc m).result = .ok R → ∀ r ∈ R, P r := by
  intro m
  induction m with
  | zero =>
    intro t B i acc hacc R hR r hr
    simp only [genLoop] at hR
    cases hR
    exact hacc r hr
  | succ n ih =>
    intro t B i acc hacc R hR r hr
    cases hres : (retryWithBackoff (oracle i) (rnd i) 5 3000 120000 0).result with
    | error e => simp [genLoop, hres] at hR
    | ok resp =>
      rcases resp with ⟨text⟩
      rcases text with _ | s
      · simp only [genLoop, hres] at hR
        exact ih t B (i + 1) acc hacc R hR r hr
      · by_cases hse : s.isEmpty
        · simp only [genLoop, hres, hse, if_true] at hR
          exact ih t B (i + 1) acc hacc R hR r hr
        · cases hps : parse s with
          | none => simp [genLoop, hres, hse, hps] at hR
          | some newRows =>
            simp only [genLoop, hres, hse, hps, Bool.false_eq_true, if_false] at hR
            refine ih t B (i + 1) (acc ++ newRows) ?_ R hR r hr
            intro r' hr'
            rcases List.mem_append.mp hr' with h | h
            · exact hacc r' h
            · exact hparse s newRows hps r' h

/-- C9: the structural contract built from the template marks every column
key required and nullable, with scalar kind NUMBER exactly for `number`
columns and STRING otherwise (assuming the template's keys are distinct, as
the data model requires); and whenever the oracle's decoded rows carry every
required key, every row of a successful generation result contains every
column key. -/
theorem claim_C9 (apiKey : Option String) (tmpl : TableTemplate)
    (cfg : SimulationConfig) (oracle : Nat → Nat → Except ApiError GenResponse)
    (parse : String → Option (List RowData)) (rnd : Nat → Nat → ℚ)
    (hnodup : (tmpl.columns.map Column.key).Nodup)
    (hconform : ∀ s rows, parse s = some rows → ∀ r ∈ rows,
      ∀ k ∈ (buildResponseSchema tmpl.columns).required, rowHasKey r k = true) :
    (∀ col ∈ tmpl.columns,
      (buildResponseSchema tmpl.columns).properties.lookup col.key =
        some ⟨if col.type == "number" then SchemaType.NUMBER else SchemaType.STRING,
          true, columnDescription col⟩ ∧
      col.key ∈ (buildResponseSchema tmpl.columns).required) ∧
    (∀ R, (generateTableData apiKey tmpl cfg oracle parse rnd).result = .ok R →
      ∀ r ∈ R, ∀ col ∈ tmpl.columns, rowHasKey r col.key = true) := by
  constructor
  · intro col hcol
    constructor
    · rw [buildResponseSchema_props tmpl.columns hnodup]
      exact lookup_map_columnProp tmpl.columns col hnodup hcol
    · rw [buildResponseSchema_required]
      exact List.mem_map_of_mem Column.key hcol
  · intro R hR r hr col hcol
    have hparse : ∀ s rows, parse s = some rows → ∀ r ∈ rows,
        ∀ c ∈ tmpl.columns, rowHasKey r c.key = true := by
      intro s rows hs r' hr' c hc
      refine hconform s rows hs r' hr' c.key ?_
      rw [buildResponseSchema_required]
      exact List.mem_map_of_mem Column.key hc
    cases hk : jsTruthy apiKey with
    | false =>
      rw [show generateTableData apiKey tmpl cfg oracle parse rnd =
          ⟨.error .apiKeyMissing, [], [], 0⟩ from by simp [generateTableData, hk]] at hR
      simp at hR
    | true =>
      rw [show generateTableData apiKey tmpl cfg oracle parse rnd =
          genLoop oracle parse rnd tmpl.defaultRows
            (batchCountOf tmpl.defaultRows).toNat 0 []
            (batchCountOf tmpl.defaultRows).toNat from by
        simp [generateTableData, hk]] at hR
      exact genLoop_rows_sound oracle parse rnd
        (fun r' => ∀ c ∈ tmpl.columns, rowHasKey r' c.key = true) hparse
        (batchCountOf tmpl.defaultRows).toNat tmpl.defaultRows
        (batchCountOf tmpl.defaultRows).toNat 0 [] (by simp) R hR r hr col hcol

/-- Witness for C9 at the example template and conforming oracle. -/
theorem claim_C9_witness :
    (∀ col ∈ tmpl70.columns,
      (buildResponseSchema tmpl70.columns).properties.lookup col.key =
        some ⟨if col.type == "number" then SchemaType.NUMBER else SchemaType.STRING,
          true, columnDescription col⟩ ∧
      col.key ∈ (buildResponseSchema tmpl70.columns).required) ∧
    (∀ R, (generateTableData (some "key") tmpl70 cfgTest oracle70 parse70
        rnd0).result = .ok R →
      ∀ r ∈ R, ∀ col ∈ tmpl70.columns, rowHasKey r col.key = true) :=
  claim_C9 (some "key") tmpl70 cfgTest oracle70 parse70 rnd0
    (by decide)
    (by
      intro s rows hs r hr k hk
      have hreq : (buildResponseSchema tmpl70.columns).required =
          ["day", "ph_9am", "corrective_action"] := by decide
      have hrows : rows = rowsA ∨ rows = rowsB := by
        by_cases h1 : s = "A"
        · subst h1
          left
          have : some rowsA = some rows := by simpa [parse70] using hs
          exact (Option.some.inj this).symm
        · by_cases h2 : s = "B"
          · subst h2
            right
            have : some rowsB = some rows := by simpa [parse70, h1] using hs
            exact (Option.some.inj this).symm
          · exfalso
            simp [parse70, h1, h2] at hs
      have hrA : r = rowA := by
        rcases hrows with h | h <;> subst h
        · simp only [rowsA] at hr
          exact List.eq_of_mem_replicate hr
        · simp only [rowsB] at hr
          exact List.eq_of_mem_replicate hr
      subst hrA
      rw [hreq] at hk
      fin_cases hk <;> decide)

/-- The example template with `defaultRows = 0`. -/
def tmpl0 : TableTemplate :=
  ⟨"pool0", "Empty Log", "Zero-row template", "Pool facility water chemistry",
   [colDay, colPh, colAction], 0, "Values must stay in range"⟩

/-- C10: when `template.defaultRows` is zero or negative, `generateTableData`
issues no oracle request, emits no progress message and returns the empty row
sequence; a missing (or empty) API key instead fails immediately with the
missing-credential error, before any batching. -/
theorem claim_C10 (apiKey : Option String) (tmpl : TableTemplate)
    (cfg : SimulationConfig) (oracle : Nat → Nat → Except ApiError GenResponse)
    (parse : String → Option (List RowData)) (rnd : Nat → Nat → ℚ)
    (ht : tmpl.defaultRows ≤ 0) :
    (jsTruthy apiKey = false →
      generateTableData apiKey tmpl cfg oracle parse rnd =
        ⟨.error .apiKeyMissing, [], [], 0⟩) ∧
    (jsTruthy apiKey = true →
      generateTableData apiKey tmpl cfg oracle parse rnd = ⟨.ok [], [], [], 0⟩) := by
  have hb : (batchCountOf tmpl.defaultRows).toNat = 0 := by
    have h0 : ¬ (0 < (batchCountOf tmpl.defaultRows).toNat) := by
      rw [lt_batchCount_iff]
      omega
    omega
  constructor
  · intro hk
    simp [generateTableData, hk]
  · intro hk
    simp [generateTableData, hk, hb, genLoop]

/-- Witness for C10: the zero-row template with and without a credential. -/
theorem claim_C10_witness :
    generateTableData none tmpl0 cfgTest oracle70 parse70 rnd0 =
      ⟨.error .apiKeyMissing, [], [], 0⟩ ∧
    generateTableData (some "key") tmpl0 cfgTest oracle70 parse70 rnd0 =
      ⟨.ok [], [], [], 0⟩ :=
  ⟨(claim_C10 none tmpl0 cfgTest oracle70 parse70 rnd0 (by decide)).1 (by decide),
   (claim_C10 (some "key") tmpl0 cfgTest oracle70 parse70 rnd0 (by decide)).2 (by decide)⟩
